import Mathlib

/-!
Verification development for the Tether presence relay.

The definitions below are a shallow embedding, translated from the Go
sources of the repository.  Go dynamic values of type any (as produced by
encoding/json decoding and by typed call sites) are modelled by the
inductive type JSONValue; a Go nil interface and a decoded JSON null are
both JSONValue.jnull, matching Go where a JSON null stored in a
map[string]any is a nil interface.  Go numeric dynamic types keep separate
constructors so that type switches translate case by case; the numeric
payloads of this program (Unix-millisecond timestamps, activity types,
flag bitsets) are mathematically integral, so float64/float32 payloads are
carried as integers.  Machine int64 arithmetic never approaches 2^63 in
the quantities handled here, so int64 is modelled by Int, with Go's
arithmetic shift and truncated remainder spelled out where they occur.
-/

/-- Model of a Go any value holding JSON-decoded or typed data. -/
inductive JSONValue where
  | jnull
  | jbool (b : Bool)
  | jint64 (n : Int)
  | jint (n : Int)
  | jfloat64 (n : Int)
  | jfloat32 (n : Int)
  | jnumber (s : String)
  | jstr (s : String)
  | jarr (xs : List JSONValue)
  | jobj (fields : List (String × JSONValue))
deriving Repr

/-- A Go map[string]any, in insertion order (order is never observed). -/
abbrev JObj := List (String × JSONValue)

/-- Lookup with presence information: models the Go comma-ok map index. -/
def jlookup (m : JObj) (k : String) : Option JSONValue :=
  (m.find? (fun p => p.1 == k)).map (fun p => p.2)

/-- Single-valued Go map index: a missing key yields the nil interface,
which coincides with a stored JSON null. -/
def jget (m : JObj) (k : String) : JSONValue :=
  (jlookup m k).getD .jnull

/-- Map assignment m[k] = v: replaces the value when the key is present,
otherwise adds the binding. -/
def jinsert (m : JObj) (k : String) (v : JSONValue) : JObj :=
  if (m.find? (fun p => p.1 == k)).isSome then
    m.map (fun p => if p.1 == k then (k, v) else p)
  else
    m ++ [(k, v)]

/-- Whether the value is the nil interface / JSON null. -/
def JSONValue.isNull : JSONValue → Bool
  | .jnull => true
  | _ => false

/-- utils.GetString: returns the string if the value is a string, else "". -/
def GetString : JSONValue → String
  | .jstr s => s
  | _ => ""

/-- utils.GetBool: returns the boolean if the value is one, else false. -/
def GetBool : JSONValue → Bool
  | .jbool b => b
  | _ => false

/-- Accumulating base-10 digit reading for strconv.ParseInt: fails on the
first non-digit character. -/
def goDigitsVal (cs : List Char) (acc : Nat) : Option Nat :=
  match cs with
  | [] => some acc
  | c :: rest => if c.isDigit then goDigitsVal rest (acc * 10 + (c.toNat - 48)) else none

/-- A non-empty all-digit run, as strconv.ParseInt requires. -/
def goParseDigits (cs : List Char) : Option Nat :=
  match cs with
  | [] => none
  | _ => goDigitsVal cs 0

/-- strconv.ParseInt(s, 10, 64) as json.Number.Int64 calls it: an
optional sign followed by at least one digit, and the result must fit
int64 — magnitudes beyond 9223372036854775807 (one more for the
negative bound) report ErrRange, which the caller treats as failure. -/
def goParseInt (s : String) : Option Int :=
  match s.data with
  | '-' :: rest => (goParseDigits rest).bind (fun n =>
      if n ≤ 9223372036854775808 then some (-(n : Int)) else none)
  | '+' :: rest => (goParseDigits rest).bind (fun n =>
      if n ≤ 9223372036854775807 then some ((n : Int)) else none)
  | cs => (goParseDigits cs).bind (fun n =>
      if n ≤ 9223372036854775807 then some ((n : Int)) else none)

/-- utils.GetInt64: the Go type switch over int64, int, float64, float32
and json.Number; every other dynamic type (including a plain string)
falls through to 0.  json.Number's Int64 method is base-10 integer
parsing via strconv.ParseInt. -/
def GetInt64 : JSONValue → Int
  | .jint64 n => n
  | .jint n => n
  | .jfloat64 n => n
  | .jfloat32 n => n
  | .jnumber s =>
    match goParseInt s with
    | some i => i
    | none => 0
  | _ => 0

/-- utils.FirstNonEmpty over the variadic argument list. -/
def FirstNonEmpty : List String → String
  | [] => ""
  | v :: rest => if v ≠ "" then v else FirstNonEmpty rest

/-- utils.MarshalToMap: nil maps to nil; a map is returned as is (the Go
fast path); any other value marshals to non-object JSON, so decoding it
into a map fails and nil is returned. -/
def MarshalToMap : JSONValue → Option JObj
  | .jobj m => some m
  | _ => none

/-- utils.MergeStringField: source wins when non-empty. -/
def MergeStringField (target source : String) : String :=
  if source ≠ "" then source else target

/-- utils.MergeIntField: source wins when non-zero. -/
def MergeIntField (target source : Int) : Int :=
  if source ≠ 0 then source else target

/-- utils.MergeAnyField: source wins when non-nil. -/
def MergeAnyField (target source : JSONValue) : JSONValue :=
  match source with
  | .jnull => target
  | v => v

/-- fmt.Sprintf with the %v verb, as used by utils.ExtractStringField.
Strings print verbatim and integral numerics print in decimal; the
composite cases are approximations that the program never formats where
the result is observed (the field is only read for id-like strings). -/
def goFormatValue : JSONValue → String
  | .jstr s => s
  | .jint64 n => toString n
  | .jint n => toString n
  | .jfloat64 n => toString n
  | .jfloat32 n => toString n
  | .jnumber s => s
  | .jbool b => cond b "true" "false"
  | .jnull => "<nil>"
  | .jarr _ => "[...]"
  | .jobj _ => "map[...]"

/-- utils.ExtractStringField: formats the value with %v when the key is
present, else returns "". -/
def ExtractStringField (m : JObj) (key : String) : String :=
  match jlookup m key with
  | some v => goFormatValue v
  | none => ""

/-- utils.ExtractIntField: float64 or int values convert, all else is 0. -/
def ExtractIntField (m : JObj) (key : String) : Int :=
  match jlookup m key with
  | some (.jfloat64 t) => t
  | some (.jint t) => t
  | _ => 0

/-- utils.ExtractBoolField: booleans pass through, all else is false. -/
def ExtractBoolField (m : JObj) (key : String) : Bool :=
  match jlookup m key with
  | some (.jbool b) => b
  | _ => false

/-- ExtractStringField through a possibly nil map (a Go nil map reads as
empty). -/
def ExtractStringFieldOpt (m : Option JObj) (key : String) : String :=
  match m with
  | some mm => ExtractStringField mm key
  | none => ""

/-- ExtractIntField through a possibly nil map. -/
def ExtractIntFieldOpt (m : Option JObj) (key : String) : Int :=
  match m with
  | some mm => ExtractIntField mm key
  | none => 0

/-- ExtractBoolField through a possibly nil map. -/
def ExtractBoolFieldOpt (m : Option JObj) (key : String) : Bool :=
  match m with
  | some mm => ExtractBoolField mm key
  | none => false

/-- Go map index through a possibly nil map, single-valued form. -/
def ugetOpt (m : Option JObj) (key : String) : JSONValue :=
  match m with
  | some mm => jget mm key
  | none => .jnull

/-- Character-list prefix test backing strings.HasPrefix /
strings.CutPrefix. -/
def charsHaveLead : List Char → List Char → Bool
  | _, [] => true
  | [], _ :: _ => false
  | c :: cs, p :: ps => c == p && charsHaveLead cs ps

/-- strings.HasPrefix over the character lists of the two strings. -/
def goStartsWith (s lead : String) : Bool :=
  charsHaveLead s.data lead.data

/-- Dropping the first n characters of a string (the strings handled
here are ASCII, so byte and character counts coincide). -/
def goDrop (s : String) (n : Nat) : String :=
  ⟨s.data.drop n⟩

/-- strings.ToLower, for the ASCII alphabet this program lowers
(payload status strings and platform names). -/
def goToLower (s : String) : String :=
  ⟨s.data.map (fun c => if 'A' ≤ c ∧ c ≤ 'Z' then Char.ofNat (c.toNat + 32) else c)⟩

/-- utils.FormatSpotifyAlbumArt: rewrites assets of the shape
spotify:hash to the CDN image URL, leaving other assets unchanged. -/
def FormatSpotifyAlbumArt (assetID : String) : String :=
  if goStartsWith assetID "spotify:" then
    "https://i.scdn.co/image/" ++ goDrop assetID 8
  else assetID

/-- utils.BuildAvatarURL: custom avatars get gif (size 64) when the hash
starts with a_, else webp (size 256); default avatars derive an index
from GetInt64 applied to the discriminator or the user id string (Go's
arithmetic right shift is floor division, Go's % is truncated
remainder). -/
def BuildAvatarURL (userID avatar discriminator : String) : String :=
  if avatar ≠ "" then
    let ext := if goStartsWith avatar "a_" then "gif" else "webp"
    let size : Nat := if goStartsWith avatar "a_" then 64 else 256
    "https://cdn.discordapp.com/avatars/" ++ userID ++ "/" ++ avatar ++ "." ++
      ext ++ "?size=" ++ toString size
  else
    let index : Int :=
      if discriminator = "0" ∨ discriminator = "" then
        if userID ≠ "" then
          Int.tmod (Int.fdiv (GetInt64 (.jstr userID)) 4194304) 6
        else 0
      else Int.tmod (GetInt64 (.jstr discriminator)) 5
    "https://cdn.discordapp.com/embed/avatars/" ++ toString index ++ ".png?size=128"

/-- utils.ClientStatusActive: true iff the normalized status object holds
a non-empty string under the lowercased platform key. -/
def ClientStatusActive (status : JSONValue) (platform : String) : Bool :=
  match MarshalToMap status with
  | none => false
  | some m => GetString (jget m (goToLower platform)) ≠ ""

/-- utils.ExtractUserID: user.id from a payload map, else "". -/
def ExtractUserID (payload : JObj) : String :=
  match jget payload "user" with
  | .jobj u => GetString (jget u "id")
  | _ => ""

/-- utils.ExtractRawActivities: the activities array, else nil. -/
def ExtractRawActivities (payload : JObj) : List JSONValue :=
  match jget payload "activities" with
  | .jarr xs => xs
  | _ => []

/-- utils.ExtractTimestamps: timestamps.start and timestamps.end through
GetInt64, or (0, 0). -/
def ExtractTimestamps (raw : JObj) : Int × Int :=
  match jlookup raw "timestamps" with
  | some (.jobj obj) => (GetInt64 (jget obj "start"), GetInt64 (jget obj "end"))
  | _ => (0, 0)

/-- utils.IsSpotifyActivity: type equals 2 (via GetInt64) or name equals
"Spotify". -/
def IsSpotifyActivity (act : JObj) : Bool :=
  GetInt64 (jget act "type") == 2 || GetString (jget act "name") == "Spotify"

/-- utils.GetSpotifyTrackID: sync_id, falling back to track_id. -/
def GetSpotifyTrackID (act : JObj) : String :=
  let syncID := GetString (jget act "sync_id")
  if syncID = "" then GetString (jget act "track_id") else syncID

/-- utils.GetSpotifyPartyID: party.id when party is an object, else "". -/
def GetSpotifyPartyID (act : JObj) : String :=
  match jget act "party" with
  | .jobj party => GetString (jget party "id")
  | _ => ""

/-- utils.LooksLikeMemberPayload: any of the member marker keys is
present. -/
def LooksLikeMemberPayload (payload : JObj) : Bool :=
  ["roles", "joined_at", "nick", "communication_disabled_until"].any
    (fun k => (jlookup payload k).isSome)

/-- utils.ExtractRawIdentityFromPayload: the user object, and the member
object (the payload itself when it looks member-shaped). -/
def ExtractRawIdentityFromPayload (payload : JObj) : Option JObj × Option JObj :=
  let userVal : Option JObj :=
    match jget payload "user" with
    | .jobj u => some u
    | _ => none
  let memberMap : Option JObj :=
    match jget payload "member" with
    | .jobj m => some m
    | _ => if LooksLikeMemberPayload payload then some payload else none
  (userVal, memberMap)

/-- utils.PublicFlagsToNames: the sequence of bit tests of the source, in
source order, each appending one label. -/
def PublicFlagsToNames (flag : Int) : List String :=
  let flags : List String := []
  let flags := if Int.land flag 1 ≠ 0 then flags ++ ["Discord_Employee"] else flags
  let flags := if Int.land flag 262144 ≠ 0 then flags ++ ["Discord_Certified_Moderator"] else flags
  let flags := if Int.land flag 2 ≠ 0 then flags ++ ["Partnered_Server_Owner"] else flags
  let flags := if Int.land flag 4 ≠ 0 then flags ++ ["HypeSquad_Events"] else flags
  let flags := if Int.land flag 64 ≠ 0 then flags ++ ["House_Bravery"] else flags
  let flags := if Int.land flag 128 ≠ 0 then flags ++ ["House_Brilliance"] else flags
  let flags := if Int.land flag 256 ≠ 0 then flags ++ ["House_Balance"] else flags
  let flags := if Int.land flag 8 ≠ 0 then flags ++ ["Bug_Hunter_Level_1"] else flags
  let flags := if Int.land flag 16384 ≠ 0 then flags ++ ["Bug_Hunter_Level_2"] else flags
  let flags := if Int.land flag 4194304 ≠ 0 then flags ++ ["Active_Developer"] else flags
  let flags := if Int.land flag 131072 ≠ 0 then flags ++ ["Early_Verified_Bot_Developer"] else flags
  let flags := if Int.land flag 512 ≠ 0 then flags ++ ["Early_Supporter"] else flags
  flags


/-- store.Timestamps (Unix-ms fields; only start and end are ever set on
the Spotify path, the other two stay zero as in the Go zero value). -/
structure Timestamps where
  start : Int := 0
  «end» : Int := 0
  createdAt : Int := 0
  changedAt : Int := 0
deriving Repr, DecidableEq

/-- store.Spotify with its pointer-typed fields: none is Go nil. -/
structure Spotify where
  trackID : Option String := none
  partyID : Option String := none
  timestamps : Option Timestamps := none
  song : Option String := none
  artist : Option String := none
  albumArt : Option String := none
  album : Option String := none
deriving Repr, DecidableEq

/-- store.DiscordUser, taking the union of the fields the two schema
variants in the source declare; the opaque identity objects are Go any
values (jnull is nil). -/
structure DiscordUser where
  id : String := ""
  username : String := ""
  globalName : String := ""
  displayName : String := ""
  avatar : String := ""
  avatarURL : String := ""
  discriminator : String := ""
  bot : Bool := false
  publicFlags : Int := 0
  avatarDecorationData : JSONValue := .jnull
  primaryGuild : JSONValue := .jnull
  collectibles : JSONValue := .jnull
  displayNameStyles : JSONValue := .jnull
deriving Repr

/-- store.Activity: a transparent string-keyed payload. -/
abbrev Activity := JObj

/-- store.PublicClients. -/
structure PublicClients where
  active : List String := []
  primary : String := ""
deriving Repr

/-- store.PublicPresence: the precomputed public snapshot. -/
structure PublicPresence where
  status : String := ""
  activities : List Activity := []
  clients : PublicClients := {}
  discordUser : DiscordUser := {}
  spotify : Option Spotify := none
deriving Repr

/-- store.PresenceData.  activeClients keeps the Go nil/non-nil slice
distinction (none is a nil slice) because buildPublicPresence branches on
it; publicPre is the cached Public snapshot. -/
structure PresenceData where
  activeOnDiscordMobile : Bool := false
  activeOnDiscordDesktop : Bool := false
  activeOnDiscordWeb : Bool := false
  activeOnDiscordEmbedded : Bool := false
  activeClients : Option (List String) := none
  primaryActiveClient : String := ""
  spotify : Option Spotify := none
  discordUser : DiscordUser := {}
  discordStatus : String := ""
  activities : List Activity := []
  listeningToSpotify : Bool := false
  suggestedUserIfExists : Option String := none
  publicPre : PublicPresence := {}
deriving Repr

/-- store.isSpotifyActivity: the store-side filter, using direct float64
and string type assertions. -/
def isSpotifyActivity (act : JObj) : Bool :=
  (match jget act "type" with
   | .jfloat64 t => t == 2
   | _ => false) ||
  (match jget act "name" with
   | .jstr name => name == "Spotify"
   | _ => false)

/-- store.buildPublicPresence: defaults a nil active-clients slice to
empty and strips Spotify activities from the public list. -/
def buildPublicPresence (p : PresenceData) : PublicPresence :=
  let active := p.activeClients.getD []
  let filtered := p.activities.filter (fun a => ¬ isSpotifyActivity a)
  { status := p.discordStatus
    clients := { active := active, primary := p.primaryActiveClient }
    activities := filtered
    spotify := p.spotify
    discordUser := p.discordUser }

/-- store.normalizePresence: refresh the cached public snapshot. -/
def normalizePresence (p : PresenceData) : PresenceData :=
  { p with publicPre := buildPublicPresence p }

/-- utils.PublicPresenceFromStore (the formatter the snapshot handler
uses): groups clients and passes activities, spotify and discord_user
straight through from the stored presence. -/
structure PublicView where
  status : String := ""
  clientsActive : Option (List String) := none
  clientsPrimary : String := ""
  activities : List Activity := []
  spotify : Option Spotify := none
  discordUser : DiscordUser := {}
  listeningToSpotify : Bool := false
deriving Repr

/-- utils.PublicPresenceFromStore, field for field. -/
def PublicPresenceFromStore (p : PresenceData) : PublicView :=
  { status := p.discordStatus
    clientsActive := p.activeClients
    clientsPrimary := p.primaryActiveClient
    activities := p.activities
    spotify := p.spotify
    discordUser := p.discordUser
    listeningToSpotify := p.listeningToSpotify }

/-- lib.patchSpotifyFromRaw (src/src/lib/spotify.go): scan the raw
activities for the first Spotify activity carrying a non-empty track id;
overwrite track id and timestamps unconditionally, and set each of
party_id, song, artist, album art and album to the freshly extracted
value when non-empty and to nil when empty. -/
def patchSpotifyFromRaw (prev : PresenceData) : List JSONValue → PresenceData
  | [] => prev
  | item :: rest =>
    match item with
    | .jobj act =>
      if ¬ IsSpotifyActivity act then patchSpotifyFromRaw prev rest
      else
        let trackID := GetSpotifyTrackID act
        if trackID = "" then patchSpotifyFromRaw prev rest
        else
          let partyID := GetSpotifyPartyID act
          let se := ExtractTimestamps act
          let aa :=
            match jlookup act "assets" with
            | some (.jobj assets) =>
              let img := GetString (jget assets "large_image")
              ((if img ≠ "" then FormatSpotifyAlbumArt img else ""),
               GetString (jget assets "large_text"))
            | _ => ("", "")
          let song := GetString (jget act "details")
          let artist := GetString (jget act "state")
          let strPtr := fun (s : String) => if s = "" then none else some s
          { prev with spotify := some {
              trackID := strPtr trackID
              timestamps := some { start := se.1, «end» := se.2 }
              partyID := if partyID ≠ "" then strPtr partyID else none
              song := if song ≠ "" then strPtr song else none
              artist := if artist ≠ "" then strPtr artist else none
              albumArt := if aa.1 ≠ "" then strPtr aa.1 else none
              album := if aa.2 ≠ "" then strPtr aa.2 else none } }
    | _ => patchSpotifyFromRaw prev rest

/-- lib.MergeDiscordUser: per-field merges, then the display-name
default, then the avatar URL recomputation. -/
def MergeDiscordUser (base incoming : DiscordUser) : DiscordUser :=
  let b : DiscordUser := { base with
    id := MergeStringField base.id incoming.id
    username := MergeStringField base.username incoming.username
    globalName := MergeStringField base.globalName incoming.globalName
    displayName := MergeStringField base.displayName incoming.displayName
    avatar := MergeStringField base.avatar incoming.avatar
    discriminator := MergeStringField base.discriminator incoming.discriminator
    avatarDecorationData := MergeAnyField base.avatarDecorationData incoming.avatarDecorationData
    primaryGuild := MergeAnyField base.primaryGuild incoming.primaryGuild
    collectibles := MergeAnyField base.collectibles incoming.collectibles
    displayNameStyles := MergeAnyField base.displayNameStyles incoming.displayNameStyles
    bot := incoming.bot || base.bot
    publicFlags := MergeIntField base.publicFlags incoming.publicFlags }
  let b :=
    if b.displayName = "" then
      { b with displayName := FirstNonEmpty [b.globalName, b.username] }
    else b
  { b with avatarURL := BuildAvatarURL b.id b.avatar b.discriminator }

/-- utils.EnrichAvatarDecorationData: adds avatar_decoration_url when the
asset field is a non-empty string; otherwise returns the input. -/
def EnrichAvatarDecorationData (raw : JSONValue) : JSONValue :=
  match raw with
  | .jnull => .jnull
  | _ =>
    match MarshalToMap raw with
    | none => raw
    | some m =>
      let asset := GetString (jget m "asset")
      if asset = "" then raw
      else .jobj (jinsert m "avatar_decoration_url"
        (.jstr ("https://cdn.discordapp.com/avatar-decoration-presets/" ++ asset ++
          ".png?size=240&passthrough=true")))

/-- utils.EnrichEmojiData: custom emojis (those with an id) gain an
emoji_url, gif when animated, png otherwise. -/
def EnrichEmojiData (raw : JSONValue) : JSONValue :=
  match raw with
  | .jnull => .jnull
  | _ =>
    match MarshalToMap raw with
    | none => raw
    | some m =>
      let emojiID := GetString (jget m "id")
      if emojiID = "" then raw
      else
        let ext :=
          match jget m "animated" with
          | .jbool b => if b then "gif" else "png"
          | _ => "png"
        .jobj (jinsert m "emoji_url"
          (.jstr ("https://cdn.discordapp.com/emojis/" ++ emojiID ++ "." ++ ext ++ "?size=32")))

/-- utils.EnrichPrimaryGuildData: adds badge_url when identity_guild_id
and badge are both present. -/
def EnrichPrimaryGuildData (raw : JSONValue) : JSONValue :=
  match raw with
  | .jnull => .jnull
  | _ =>
    match MarshalToMap raw with
    | none => raw
    | some m =>
      let identityGuildID := GetString (jget m "identity_guild_id")
      let badge := GetString (jget m "badge")
      if identityGuildID = "" ∨ badge = "" then raw
      else .jobj (jinsert m "badge_url"
        (.jstr ("https://cdn.discordapp.com/clan-badges/" ++ identityGuildID ++ "/" ++
          badge ++ ".png?size=32")))

/-- The asset URL builder local to utils.EnrichActivityAssets. -/
def activityAssetURL (appID asset : String) : String :=
  if asset = "" then ""
  else if goStartsWith asset "mp:external/" then
    "https://media.discordapp.net/" ++ goDrop asset 3
  else if appID = "" then ""
  else "https://cdn.discordapp.com/app-assets/" ++ appID ++ "/" ++ asset ++ ".webp"

/-- utils.EnrichActivityAssets: adds large_image_url and small_image_url
inside the assets sub-object when they resolve, then writes the assets
object back. -/
def EnrichActivityAssets (raw : JSONValue) : JSONValue :=
  match raw with
  | .jnull => .jnull
  | _ =>
    match MarshalToMap raw with
    | none => raw
    | some m =>
      let appID := GetString (jget m "application_id")
      match jlookup m "assets" with
      | some (.jobj assetsVal) =>
        let li := GetString (jget assetsVal "large_image")
        let assets1 :=
          if li ≠ "" ∧ activityAssetURL appID li ≠ "" then
            jinsert assetsVal "large_image_url" (.jstr (activityAssetURL appID li))
          else assetsVal
        let si := GetString (jget assets1 "small_image")
        let assets2 :=
          if si ≠ "" ∧ activityAssetURL appID si ≠ "" then
            jinsert assets1 "small_image_url" (.jstr (activityAssetURL appID si))
          else assets1
        .jobj (jinsert m "assets" (.jobj assets2))
      | _ => raw

/-- lib.patchActivitiesFromRaw: enrich each raw activity map (emoji, then
asset URLs) and replace the activities list when any were collected. -/
def patchActivitiesFromRaw (prev : PresenceData) (rawActivities : List JSONValue) :
    PresenceData :=
  if rawActivities.length = 0 then prev
  else
    let acts := rawActivities.foldl (fun (acc : List Activity) rawItem =>
      match rawItem with
      | .jobj m =>
        let m1 :=
          match jlookup m "emoji" with
          | some emoji => jinsert m "emoji" (EnrichEmojiData emoji)
          | none => m
        let m2 :=
          match EnrichActivityAssets (.jobj m1) with
          | .jobj em => em
          | _ => m1
        acc ++ [m2]
      | _ => acc) []
    if acts.length > 0 then { prev with activities := acts } else prev

/-- lib.hasSpotifyActivity: any raw activity matches the Spotify test. -/
def hasSpotifyActivity (rawActivities : List JSONValue) : Bool :=
  rawActivities.any (fun item =>
    match item with
    | .jobj act => IsSpotifyActivity act
    | _ => false)

/-- lib.hasIdentityFields: meaningful identity beyond an id. -/
def hasIdentityFields (user : Option JObj) : Bool :=
  match user with
  | none => false
  | some u =>
    GetString (jget u "username") ≠ "" ||
    GetString (jget u "avatar") ≠ "" ||
    GetString (jget u "global_name") ≠ "" ||
    GetString (jget u "display_name") ≠ "" ||
    GetString (jget u "discriminator") ≠ "" ||
    ExtractIntField u "public_flags" ≠ 0 ||
    ¬ (jget u "avatar_decoration_data").isNull ||
    ¬ (jget u "primary_guild").isNull ||
    ¬ (jget u "collectibles").isNull ||
    ¬ (jget u "display_name_styles").isNull

/-- lib.pickUserMap: the richest user map, in the order the source tries
the candidates. -/
def pickUserMap (user member : Option JObj) : Option JObj :=
  if hasIdentityFields user then user
  else
    let fromMember :=
      match member with
      | some m =>
        match jget m "user" with
        | .jobj mUser => if hasIdentityFields (some mUser) then some mUser else none
        | _ => none
      | none => none
    match fromMember with
    | some mUser => some mUser
    | none =>
      match user with
      | some u => some u
      | none =>
        match member with
        | some m =>
          match jget m "user" with
          | .jobj mUser => some mUser
          | _ => none
        | none => none

/-- lib.discordUserFromRaw: identity fields from the raw user map,
member-level overrides, then the avatar URL. -/
def discordUserFromRaw (user member : Option JObj) : DiscordUser :=
  let du : DiscordUser := {
    id := ExtractStringFieldOpt user "id"
    username := GetString (ugetOpt user "username")
    globalName := GetString (ugetOpt user "global_name")
    displayName := GetString (ugetOpt user "display_name")
    avatar := GetString (ugetOpt user "avatar")
    discriminator := GetString (ugetOpt user "discriminator")
    bot := ExtractBoolFieldOpt user "bot"
    publicFlags := ExtractIntFieldOpt user "public_flags"
    avatarDecorationData := EnrichAvatarDecorationData (ugetOpt user "avatar_decoration_data")
    primaryGuild := EnrichPrimaryGuildData (ugetOpt user "primary_guild")
    collectibles := ugetOpt user "collectibles"
    displayNameStyles := ugetOpt user "display_name_styles" }
  let du2 :=
    match member with
    | none => du
    | some m =>
      let duA :=
        if GetString (jget m "display_name") ≠ "" then
          { du with displayName := GetString (jget m "display_name") }
        else du
      let duB :=
        if GetString (jget m "avatar") ≠ "" then
          { duA with avatar := GetString (jget m "avatar") }
        else duA
      { duB with
        avatarDecorationData := MergeAnyField duB.avatarDecorationData
          (EnrichAvatarDecorationData (jget m "avatar_decoration_data"))
        primaryGuild := MergeAnyField duB.primaryGuild
          (EnrichPrimaryGuildData (jget m "primary_guild"))
        collectibles := MergeAnyField duB.collectibles (jget m "collectibles")
        displayNameStyles := MergeAnyField duB.displayNameStyles (jget m "display_name_styles") }
  { du2 with avatarURL := BuildAvatarURL du2.id du2.avatar du2.discriminator }

/-- lib.BuildPresenceFromRaw: user id resolution, status defaulting,
client-status booleans, activity and Spotify patching, identity
selection and the built discord user; ok is false when the user id is
missing or the status is offline. -/
def BuildPresenceFromRaw (payload : JObj) (user member : Option JObj) :
    PresenceData × String × Bool :=
  let userID0 := ExtractUserID payload
  let userID :=
    if userID0 = "" ∧ user.isSome then ExtractStringFieldOpt user "id" else userID0
  let status0 := goToLower (GetString (jget payload "status"))
  let status := if status0 = "" then "offline" else status0
  if userID = "" ∨ status = "offline" then ({}, userID, false)
  else
    let rawActivities := ExtractRawActivities payload
    let clientStatus := jget payload "client_status"
    let presence0 : PresenceData := {
      activeOnDiscordDesktop := ClientStatusActive clientStatus "desktop"
      activeOnDiscordMobile := ClientStatusActive clientStatus "mobile"
      activeOnDiscordWeb := ClientStatusActive clientStatus "web"
      activeOnDiscordEmbedded := ClientStatusActive clientStatus "embedded"
      discordStatus := status }
    let presence1 := patchActivitiesFromRaw presence0 rawActivities
    let presence2 := patchSpotifyFromRaw presence1 rawActivities
    let presence3 := { presence2 with
      listeningToSpotify := presence2.spotify.isSome || hasSpotifyActivity rawActivities }
    let user1 := pickUserMap user member
    let picked :=
      if user1.isNone ∨ member.isNone then
        let um := ExtractRawIdentityFromPayload payload
        let userA := if user1.isNone then um.1 else user1
        let memberA := if member.isNone then um.2 else member
        (pickUserMap userA memberA, memberA)
      else (user1, member)
    ({ presence3 with discordUser := discordUserFromRaw picked.1 picked.2 }, userID, true)

/-- store.PresenceEvent: presence is carried for updates and absent for
removals (the Go struct leaves the zero value behind a removed flag; the
envelope omits it). -/
structure PresenceEvent where
  userID : String
  presence : Option PresenceData := none
  removed : Bool := false
deriving Repr

/-- One subscriber channel (buffer depth 16).  closeCount is a ghost
observation counting invocations of close on the channel so that
single-closing is expressible. -/
structure Chan where
  buf : List PresenceEvent := []
  closed : Bool := false
  closeCount : Nat := 0
deriving Repr

/-- The sequential state of store.PresenceStore: the data map, the set of
currently registered watcher ids, the channel object of every watcher id
ever issued, and the id counter.  Replicators are immaterial to the
claims and omitted. -/
structure StoreState where
  data : List (String × PresenceData) := []
  registered : List Nat := []
  chans : Nat → Chan := fun _ => {}
  nextWatcherID : Nat := 0

/-- Read-locked lookup (store.GetPresence). -/
def lookupData (s : StoreState) (id : String) : Option PresenceData :=
  ((s.data.find? (fun p => p.1 == id))).map (fun p => p.2)

/-- Map write for the data map. -/
def insertData (d : List (String × PresenceData)) (k : String) (v : PresenceData) :
    List (String × PresenceData) :=
  if (d.find? (fun p => p.1 == k)).isSome then
    d.map (fun p => if p.1 == k then (k, v) else p)
  else d ++ [(k, v)]

/-- Map delete for the data map. -/
def eraseData (d : List (String × PresenceData)) (k : String) :
    List (String × PresenceData) :=
  d.filter (fun p => p.1 ≠ k)

/-- The non-blocking send of store.broadcast: append when the buffer has
room, silently drop otherwise. -/
def trySend (c : Chan) (evt : PresenceEvent) : Chan :=
  if c.buf.length < 16 then { c with buf := c.buf ++ [evt] } else c

/-- store.broadcast: offer the event to every registered watcher. -/
def broadcastStore (s : StoreState) (evt : PresenceEvent) : StoreState :=
  { s with chans := fun i =>
      if i ∈ s.registered then trySend (s.chans i) evt else s.chans i }

/-- store.Subscribe: allocate the next id with a fresh channel; the
returned id identifies the channel for the caller. -/
def subscribeStore (s : StoreState) : Nat × StoreState :=
  let id := s.nextWatcherID
  (id, { s with
    nextWatcherID := id + 1
    registered := id :: s.registered
    chans := fun i => if i = id then {} else s.chans i })

/-- The cancel closure returned by store.Subscribe: when the id is still
registered, remove it and close its channel, otherwise do nothing. -/
def cancelStore (s : StoreState) (id : Nat) : StoreState :=
  if id ∈ s.registered then
    { s with
      registered := s.registered.filter (fun i => i ≠ id)
      chans := fun i =>
        if i = id then
          { s.chans i with closed := true, closeCount := (s.chans i).closeCount + 1 }
        else s.chans i }
  else s

/-- store.SetPresence: normalize, write, broadcast. -/
def setPresenceStore (s : StoreState) (userID : String) (presence : PresenceData) :
    StoreState :=
  let presence := normalizePresence presence
  broadcastStore { s with data := insertData s.data userID presence }
    { userID := userID, presence := some presence, removed := false }

/-- store.SetPresenceQuiet: normalize and write without broadcasting. -/
def setPresenceQuietStore (s : StoreState) (userID : String) (presence : PresenceData) :
    StoreState :=
  let presence := normalizePresence presence
  { s with data := insertData s.data userID presence }

/-- store.RemovePresence: unconditional delete, then a removal event. -/
def removePresenceStore (s : StoreState) (userID : String) : StoreState :=
  broadcastStore { s with data := eraseData s.data userID }
    { userID := userID, removed := true }

/-- store.BroadcastPresence: emit the current value when present. -/
def broadcastPresenceStore (s : StoreState) (userID : String) : StoreState :=
  match lookupData s userID with
  | none => s
  | some d => broadcastStore s { userID := userID, presence := some d, removed := false }

/-- The store mutations named by the subscriber-isolation claim. -/
inductive StoreOp where
  | set (userID : String) (presence : PresenceData)
  | remove (userID : String)
  | broadcastP (userID : String)

/-- Interpretation of one store mutation. -/
def applyOp (s : StoreState) : StoreOp → StoreState
  | .set userID presence => setPresenceStore s userID presence
  | .remove userID => removePresenceStore s userID
  | .broadcastP userID => broadcastPresenceStore s userID

/-- Interpretation of a sequence of store mutations. -/
def runOps (s : StoreState) : List StoreOp → StoreState
  | [] => s
  | op :: rest => runOps (applyOp s op) rest

/-- The outcomes of the snapshot handler. -/
inductive SnapshotResult where
  | badRequest
  | notFound
  | ok (body : PublicView)
deriving Repr

/-- api.SnapshotHandler.ServeHTTP: empty id and non-digit ids are 400,
a missing user is 404, otherwise the response body is the public
formatter applied to the stored presence. -/
def ServeSnapshot (s : StoreState) (userID : String) : SnapshotResult :=
  if userID = "" then .badRequest
  else if userID.data.any (fun ch => ch < '0' ∨ ch > '9') then .badRequest
  else
    match lookupData s userID with
    | none => .notFound
    | some presence => .ok (PublicPresenceFromStore presence)

/-- bot.handleRawPresence on an already decoded payload: build the
presence, remove on failure when an id was resolved, otherwise merge the
new discord user over the previous one and store. -/
def HandleRawPresence (s : StoreState) (payload : JObj) : StoreState :=
  let um := ExtractRawIdentityFromPayload payload
  let r := BuildPresenceFromRaw payload um.1 um.2
  if r.2.2 then
    let presence :=
      match lookupData s r.2.1 with
      | some prev =>
        { r.1 with discordUser := MergeDiscordUser prev.discordUser r.1.discordUser }
      | none => r.1
    setPresenceStore s r.2.1 presence
  else if r.2.1 ≠ "" then removePresenceStore s r.2.1
  else s

/-- websocket.initPayload after json round-trip decoding. -/
structure InitPayload where
  subscribeToIDs : List String := []
  subscribeToID : String := ""
deriving Repr

/-- Decoding a JSON array into a Go []string: string elements decode,
a null element is ignored without error and leaves the zero value "",
and a mismatched element likewise stays "" while Unmarshal completes
the rest as best it can, reporting an error that decodeInitPayload
discards. -/
def stringsOf : List JSONValue → List String
  | [] => []
  | .jstr s :: rest => s :: stringsOf rest
  | _ :: rest => "" :: stringsOf rest

/-- websocket.Server.decodeInitPayload: re-marshal the raw d value and
decode it into the payload struct; errors leave zero values behind. -/
def decodeInitPayload (raw : JSONValue) : InitPayload :=
  match raw with
  | .jobj fields =>
    { subscribeToIDs :=
        match jlookup fields "subscribe_to_ids" with
        | some (.jarr xs) => stringsOf xs
        | _ => []
      subscribeToID :=
        match jlookup fields "subscribe_to_id" with
        | some (.jstr s) => s
        | _ => "" }
  | _ => {}

/-- The fresh subscription set handleInit builds: subscribe_to_id first
when non-empty, then every non-empty entry of subscribe_to_ids; the set
semantics of the Go map is a duplicate-free list. -/
def buildSubs (payload : InitPayload) : List String :=
  let s0 := if payload.subscribeToID ≠ "" then [payload.subscribeToID] else []
  payload.subscribeToIDs.foldl
    (fun acc id => if id ≠ "" ∧ ¬ id ∈ acc then acc ++ [id] else acc) s0

/-- Per-connection state relevant to the protocol claims. -/
structure ConnState where
  subs : List String := []
deriving Repr

/-- The observable outcome of processing one client frame on a
registered connection. -/
inductive WsResult where
  | close (code : Nat) (reason : String)
  | heartbeatAck
  | initOk (initStateIds : List String)
deriving Repr, DecidableEq

/-- websocket.Server.handleInit for a registered connection: nil d and
non-object d close with 4005; the subscription set is rebuilt from
scratch; an empty result closes with 4006; otherwise one INIT_STATE is
sent per subscribed id currently present in the store. -/
def HandleInit (st : StoreState) (conn : ConnState) (d : JSONValue) :
    WsResult × ConnState :=
  match d with
  | .jnull => (.close 4005 "requires_data_object", conn)
  | .jobj _ =>
    let subs := buildSubs (decodeInitPayload d)
    let conn2 : ConnState := { conn with subs := subs }
    if subs.isEmpty then (.close 4006 "invalid_payload", conn2)
    else (.initOk (subs.filter (fun id => (lookupData st id).isSome)), conn2)
  | _ => (.close 4005 "requires_data_object", conn)

/-- A client frame as read by websocket.Server.handleConn; d is nil when
the field is absent or null. -/
structure WsMessage where
  op : Int
  d : JSONValue := .jnull

/-- websocket.Server.handleConn dispatch for one frame on a registered
connection: op 2 runs handleInit, op 3 is acknowledged, anything else
closes with 4004. -/
def HandleFrame (st : StoreState) (conn : ConnState) (msg : WsMessage) :
    WsResult × ConnState :=
  if msg.op = 2 then HandleInit st conn msg.d
  else if msg.op = 3 then (.heartbeatAck, conn)
  else (.close 4004 "unknown_opcode", conn)

/-- The flag table in the order the source tests the bits. -/
def codeFlagTable : List (Int × String) :=
  [(1, "Discord_Employee"), (262144, "Discord_Certified_Moderator"),
   (2, "Partnered_Server_Owner"), (4, "HypeSquad_Events"), (64, "House_Bravery"),
   (128, "House_Brilliance"), (256, "House_Balance"), (8, "Bug_Hunter_Level_1"),
   (16384, "Bug_Hunter_Level_2"), (4194304, "Active_Developer"),
   (131072, "Early_Verified_Bot_Developer"), (512, "Early_Supporter")]

/-- Modelled from the spec: the same flag table in the order the spec
lists it, which is increasing bit value. -/
def specFlagTable : List (Int × String) :=
  [(1, "Discord_Employee"), (2, "Partnered_Server_Owner"), (4, "HypeSquad_Events"),
   (8, "Bug_Hunter_Level_1"), (64, "House_Bravery"), (128, "House_Brilliance"),
   (256, "House_Balance"), (512, "Early_Supporter"), (16384, "Bug_Hunter_Level_2"),
   (131072, "Early_Verified_Bot_Developer"), (262144, "Discord_Certified_Moderator"),
   (4194304, "Active_Developer")]

/-- The names of the set bits of a flag value, appended in the order of a
given table. -/
def flagsFromTable (tbl : List (Int × String)) (flag : Int) : List String :=
  tbl.foldl (fun acc b => if Int.land flag b.1 ≠ 0 then acc ++ [b.2] else acc) []

/-- Membership after folding the table over any accumulator. -/
theorem mem_flagsFromTable_aux (flag : Int) (n : String) :
    ∀ (tbl : List (Int × String)) (acc : List String),
      (n ∈ tbl.foldl (fun acc b => if Int.land flag b.1 ≠ 0 then acc ++ [b.2] else acc) acc ↔
        n ∈ acc ∨ ∃ b ∈ tbl, b.2 = n ∧ Int.land flag b.1 ≠ 0) := by
  intro tbl
  induction tbl with
  | nil => simp
  | cons b rest ih =>
    intro acc
    by_cases h : Int.land flag b.1 ≠ 0
    · simp only [List.foldl_cons, if_pos h, ih, List.mem_append, List.mem_singleton,
        List.exists_mem_cons_iff]
      constructor
      · rintro ((ha | hb) | hrest)
        · exact Or.inl ha
        · exact Or.inr (Or.inl ⟨hb ▸ rfl, h⟩)
        · exact Or.inr (Or.inr hrest)
      · rintro (ha | ⟨hb, _⟩ | hrest)
        · exact Or.inl (Or.inl ha)
        · exact Or.inl (Or.inr hb.symm)
        · exact Or.inr hrest
    · simp only [List.foldl_cons, if_neg h, ih, List.exists_mem_cons_iff]
      constructor
      · rintro (ha | hrest)
        · exact Or.inl ha
        · exact Or.inr (Or.inr hrest)
      · rintro (ha | ⟨_, hc⟩ | hrest)
        · exact Or.inl ha
        · exact absurd hc h
        · exact Or.inr hrest

/-- Membership in a table-ordered flag listing is exactly a set bit. -/
theorem mem_flagsFromTable (tbl : List (Int × String)) (flag : Int) (n : String) :
    n ∈ flagsFromTable tbl flag ↔ ∃ b ∈ tbl, b.2 = n ∧ Int.land flag b.1 ≠ 0 := by
  rw [flagsFromTable]
  simpa using mem_flagsFromTable_aux flag n tbl []

/-- The source's sequence of conditional appends is the code-table
listing. -/
theorem publicFlagsToNames_eq_codeTable (flag : Int) :
    PublicFlagsToNames flag = flagsFromTable codeFlagTable flag := rfl

/-- The activities list served for a user, when the lookup succeeds. -/
def servedActivities (s : StoreState) (userID : String) : Option (List Activity) :=
  match ServeSnapshot s userID with
  | .ok body => some body.activities
  | _ => none

/-- The discord_user.avatar_url served for a user, when the lookup
succeeds. -/
def servedAvatarURL (s : StoreState) (userID : String) : Option String :=
  match ServeSnapshot s userID with
  | .ok body => some body.discordUser.avatarURL
  | _ => none

/-- An existential over the code-order table ranges over the same twelve
entries as one over the spec-order table. -/
theorem exists_code_iff_spec (P : Int × String → Prop) :
    (∃ b ∈ codeFlagTable, P b) ↔ ∃ b ∈ specFlagTable, P b := by
  simp only [codeFlagTable, specFlagTable, List.exists_mem_cons_iff,
    List.not_mem_nil]
  tauto

/-- C8: the public-flags decoding does not list the names in the spec's
order (increasing bit value): at flag 262146, bits 2 and 262144 are set,
and the code emits Discord_Certified_Moderator before
Partnered_Server_Owner while the spec's order demands the reverse. -/
theorem C8_order_counterexample :
    PublicFlagsToNames 262146 = ["Discord_Certified_Moderator", "Partnered_Server_Owner"] ∧
    flagsFromTable specFlagTable 262146 =
      ["Partnered_Server_Owner", "Discord_Certified_Moderator"] ∧
    PublicFlagsToNames 262146 ≠ flagsFromTable specFlagTable 262146 := by
  refine ⟨by decide, by decide, by decide⟩

/-- C8 (amended): for every integer bitset, public-flags decoding returns
exactly the names of the set bits of the spec's table, but listed in the
source's fixed test order (1, 262144, 2, 4, 64, 128, 256, 8, 16384,
4194304, 131072, 512) rather than in increasing bit value. -/
theorem C8_publicFlags_exact_names (flag : Int) :
    PublicFlagsToNames flag = flagsFromTable codeFlagTable flag ∧
    (∀ n : String,
      n ∈ PublicFlagsToNames flag ↔ ∃ b ∈ specFlagTable, b.2 = n ∧ Int.land flag b.1 ≠ 0) := by
  refine ⟨publicFlagsToNames_eq_codeTable flag, fun n => ?_⟩
  rw [publicFlagsToNames_eq_codeTable, mem_flagsFromTable]
  exact exists_code_iff_spec (fun b => b.2 = n ∧ Int.land flag b.1 ≠ 0)

/-- Witness: the amended flag characterization evaluated at bitset 3. -/
theorem C8_publicFlags_exact_names_witness :
    PublicFlagsToNames 3 = flagsFromTable codeFlagTable 3 ∧
    ("Partnered_Server_Owner" ∈ PublicFlagsToNames 3 ↔
      ∃ b ∈ specFlagTable, b.2 = "Partnered_Server_Owner" ∧ Int.land 3 b.1 ≠ 0) :=
  ⟨(C8_publicFlags_exact_names 3).1, (C8_publicFlags_exact_names 3).2 "Partnered_Server_Owner"⟩

/-- C5: get_int64 does not parse a plain numeric string: the plain string
"42" maps to 0, not 42. -/
theorem C5_plain_string_counterexample :
    GetInt64 (.jstr "42") = 0 ∧ GetInt64 (.jstr "42") ≠ 42 := by
  refine ⟨rfl, by decide⟩

/-- C5 (amended): get_int64 is total; it returns the numeric value for
the Go numeric dynamic types int64, int, float64 and float32 and for
json.Number values whose text parses as an integer, and returns 0 for
every other input, including plain strings (even numeric ones such as
"42"), unparseable json.Number values, booleans, null, arrays and
objects. -/
theorem C5_getInt64_amended :
    (∀ n : Int, GetInt64 (.jint64 n) = n ∧ GetInt64 (.jint n) = n ∧
      GetInt64 (.jfloat64 n) = n ∧ GetInt64 (.jfloat32 n) = n) ∧
    (∀ (s : String) (i : Int), goParseInt s = some i → GetInt64 (.jnumber s) = i) ∧
    (∀ s : String, goParseInt s = none → GetInt64 (.jnumber s) = 0) ∧
    (∀ s : String, GetInt64 (.jstr s) = 0) ∧
    GetInt64 .jnull = 0 ∧
    (∀ b : Bool, GetInt64 (.jbool b) = 0) ∧
    (∀ xs : List JSONValue, GetInt64 (.jarr xs) = 0) ∧
    (∀ m : JObj, GetInt64 (.jobj m) = 0) := by
  refine ⟨fun n => ⟨rfl, rfl, rfl, rfl⟩, fun s i h => ?_, fun s h => ?_,
    fun s => rfl, rfl, fun b => rfl, fun xs => rfl, fun m => rfl⟩
  · simp [GetInt64, h]
  · simp [GetInt64, h]

/-- Witness: the json.Number cases of the amended get_int64 theorem at
the in-range text "7" and at the out-of-range text 2^63, which
strconv.ParseInt rejects with ErrRange so get_int64 yields 0. -/
theorem C5_getInt64_amended_witness :
    goParseInt "7" = some 7 ∧ GetInt64 (.jnumber "7") = 7 ∧
    goParseInt "9223372036854775808" = none ∧
    GetInt64 (.jnumber "9223372036854775808") = 0 :=
  ⟨by decide, C5_getInt64_amended.2.1 "7" 7 (by decide),
   by decide, C5_getInt64_amended.2.2.1 "9223372036854775808" (by decide)⟩

/-- The PRESENCE_UPDATE payload of scenario S1: user 1 comes online with
username a and an empty avatar hash. -/
def s1Payload : JObj :=
  [("status", .jstr "online"),
   ("user", .jobj [("id", .jstr "1"), ("username", .jstr "a"), ("avatar", .jstr "")])]

/-- C4: after ingesting the S1 presence, the served
discord_user.avatar_url is the default-avatar URL with index 0, not the
index 1 the claim states: GetInt64 receives the user id as a plain
string and returns 0, and even the spec's own formula (1 >> 22) % 6
yields 0. -/
theorem C4_avatar_counterexample :
    servedAvatarURL (HandleRawPresence {} s1Payload) "1" =
      some "https://cdn.discordapp.com/embed/avatars/0.png?size=128" ∧
    servedAvatarURL (HandleRawPresence {} s1Payload) "1" ≠
      some "https://cdn.discordapp.com/embed/avatars/1.png?size=128" := by
  refine ⟨rfl, by decide⟩

/-- C4 (amended): after inserting the S1 presence, the 200 response of
GET /v1/users/1 carries discord_user.avatar_url equal to
https://cdn.discordapp.com/embed/avatars/0.png?size=128. -/
theorem C4_avatar_amended :
    servedAvatarURL (HandleRawPresence {} s1Payload) "1" =
      some "https://cdn.discordapp.com/embed/avatars/0.png?size=128" ∧
    BuildAvatarURL "1" "" "" =
      "https://cdn.discordapp.com/embed/avatars/0.png?size=128" := by
  exact ⟨rfl, rfl⟩

/-- A stored presence whose raw activities list holds the Spotify
activity (type 2, name Spotify). -/
def spotifyLeakAct : Activity := [("type", .jfloat64 2), ("name", .jstr "Spotify")]

/-- The presence wrapping the Spotify activity. -/
def spotifyLeakPresence : PresenceData :=
  { discordStatus := "online", activities := [spotifyLeakAct] }

/-- C1: the activities list served by GET /v1/users/7 still contains the
Spotify activity, because the handler formats the raw activities list of
the stored presence, while the store's own precomputed public snapshot
(documented as what REST returns) filters it out. -/
theorem C1_spotify_activity_leaks :
    servedActivities (setPresenceStore {} "7" spotifyLeakPresence) "7" =
      some [spotifyLeakAct] ∧
    isSpotifyActivity spotifyLeakAct = true ∧
    (buildPublicPresence spotifyLeakPresence).activities = [] := by
  exact ⟨rfl, rfl, rfl⟩


/-- A fully populated previous Spotify object. -/
def c2PrevSpotify : Spotify :=
  { trackID := some "x"
    partyID := some "pp"
    song := some "OldSong"
    artist := some "OldArtist"
    albumArt := some "OldArt"
    album := some "OldAlbum" }

/-- A previous presence whose Spotify object has every field populated. -/
def c2Prev : PresenceData := { spotify := some c2PrevSpotify }

/-- A raw Spotify activity carrying only a track id: every other
extracted field is empty. -/
def c2Act : JObj := [("type", .jfloat64 2), ("sync_id", .jstr "t")]

/-- C2: patch_spotify does not retain previous field values when the
newly extracted ones are empty: with a previous song of OldSong and an
activity carrying only a track id, the resulting song is null, not
OldSong (and likewise for artist, album_art, album and party_id). -/
theorem C2_fields_cleared_counterexample :
    (patchSpotifyFromRaw c2Prev [.jobj c2Act]).spotify.map Spotify.song = some none ∧
    (patchSpotifyFromRaw c2Prev [.jobj c2Act]).spotify.map Spotify.song ≠
      some (some "OldSong") ∧
    (patchSpotifyFromRaw c2Prev [.jobj c2Act]).spotify.map Spotify.artist = some none ∧
    (patchSpotifyFromRaw c2Prev [.jobj c2Act]).spotify.map Spotify.albumArt = some none ∧
    (patchSpotifyFromRaw c2Prev [.jobj c2Act]).spotify.map Spotify.album = some none ∧
    (patchSpotifyFromRaw c2Prev [.jobj c2Act]).spotify.map Spotify.partyID = some none := by
  refine ⟨rfl, by decide, rfl, rfl, rfl, rfl⟩

/-- The album-art and album extraction local to patchSpotifyFromRaw. -/
def spotifyAlbumFields (act : JObj) : String × String :=
  match jlookup act "assets" with
  | some (.jobj assets) =>
    ((if GetString (jget assets "large_image") ≠ "" then
        FormatSpotifyAlbumArt (GetString (jget assets "large_image")) else ""),
     GetString (jget assets "large_text"))
  | _ => ("", "")

/-- The guarded overwrite the source applies to the five optional
fields collapses to: extracted value when non-empty, null when empty. -/
theorem strPtrFlip (x : String) :
    (if x ≠ "" then (if x = "" then none else some x) else none) =
      (if x = "" then none else some x) := by
  by_cases h : x = "" <;> simp [h]

/-- C2 (amended): when patch_spotify finds a Spotify activity with a
non-empty track id, it overwrites track_id and timestamps
unconditionally, and sets each of song, artist, album_art, album and
party_id to the freshly extracted value when that value is non-empty and
to null when it is empty — the previous value is never retained. -/
theorem C2_patchSpotify_amended (prev : PresenceData) (act : JObj)
    (hspot : IsSpotifyActivity act = true) (htrack : GetSpotifyTrackID act ≠ "") :
    (patchSpotifyFromRaw prev [.jobj act]).spotify = some
      { trackID := some (GetSpotifyTrackID act)
        timestamps := some { start := (ExtractTimestamps act).1
                             «end» := (ExtractTimestamps act).2 }
        partyID := if GetSpotifyPartyID act = "" then none
                   else some (GetSpotifyPartyID act)
        song := if GetString (jget act "details") = "" then none
                else some (GetString (jget act "details"))
        artist := if GetString (jget act "state") = "" then none
                  else some (GetString (jget act "state"))
        albumArt := if (spotifyAlbumFields act).1 = "" then none
                    else some (spotifyAlbumFields act).1
        album := if (spotifyAlbumFields act).2 = "" then none
                 else some (spotifyAlbumFields act).2 } := by
  simp only [patchSpotifyFromRaw, spotifyAlbumFields, hspot, not_true_eq_false,
    ite_false, if_neg htrack]
  simp [strPtrFlip]
  exact ⟨fun h => (if_pos h).symm, fun h => (if_pos h).symm, fun h => (if_pos h).symm,
    fun h => (if_pos h).symm, fun h => (if_pos h).symm⟩

/-- The witness activity: a track id and a song title, everything else
absent. -/
def c2WitnessAct : JObj :=
  [("type", .jfloat64 2), ("sync_id", .jstr "t"), ("details", .jstr "Song")]

/-- Witness: the amended patch_spotify theorem at the witness activity —
the song is overwritten and the other four fields are cleared. -/
theorem C2_patchSpotify_amended_witness :
    (patchSpotifyFromRaw c2Prev [.jobj c2WitnessAct]).spotify = some
      { trackID := some "t"
        timestamps := some {}
        song := some "Song" } := by
  rw [C2_patchSpotify_amended c2Prev c2WitnessAct (by decide) (by decide)]
  decide

/-- Merging an empty source string keeps the target. -/
theorem mergeStringField_empty_src (t : String) : MergeStringField t "" = t := by
  simp [MergeStringField]

/-- Merging into an empty target yields the source. -/
theorem mergeStringField_empty_tgt (s : String) : MergeStringField "" s = s := by
  by_cases h : s = "" <;> simp [MergeStringField, h]

/-- Merging a zero source int keeps the target. -/
theorem mergeIntField_zero_src (t : Int) : MergeIntField t 0 = t := by
  simp [MergeIntField]

/-- Merging into a zero target yields the source. -/
theorem mergeIntField_zero_tgt (s : Int) : MergeIntField 0 s = s := by
  by_cases h : s = 0 <;> simp [MergeIntField, h]

/-- Merging a nil source keeps the target. -/
theorem mergeAnyField_null_src (t : JSONValue) : MergeAnyField t .jnull = t := rfl

/-- Merging into a nil target yields the source. -/
theorem mergeAnyField_null_tgt (s : JSONValue) : MergeAnyField .jnull s = s := by
  cases s <;> rfl

/-- The all-zero DiscordUser: every string empty, ints zero, opaque
fields nil, bot false. -/
def emptyDiscordUser : DiscordUser := {}

/-- C3: merge_discord_user is not an identity on either side at the
all-zero user: merging empty with empty recomputes avatar_url to the
default-avatar URL, which differs from the empty string the all-zero
user carries. -/
theorem C3_merge_identity_counterexample :
    MergeDiscordUser emptyDiscordUser emptyDiscordUser ≠ emptyDiscordUser ∧
    (MergeDiscordUser emptyDiscordUser emptyDiscordUser).avatarURL =
      "https://cdn.discordapp.com/embed/avatars/0.png?size=128" ∧
    emptyDiscordUser.avatarURL = "" := by
  refine ⟨fun h => absurd (congrArg DiscordUser.avatarURL h) (by decide), rfl, rfl⟩

/-- C3 (amended): merge_discord_user is an identity on either side for
every user value that is already in the normal form the merge re-imposes:
its display_name is non-empty or there is no global_name/username to
default it from, and its avatar_url equals the recomputed
BuildAvatarURL of its id, avatar and discriminator.  (At the all-zero
user the avatar_url condition fails, which is the counterexample.) -/
theorem C3_merge_identity_amended :
    (∀ a : DiscordUser,
      (a.displayName ≠ "" ∨ (a.globalName = "" ∧ a.username = "")) →
      a.avatarURL = BuildAvatarURL a.id a.avatar a.discriminator →
      MergeDiscordUser a emptyDiscordUser = a) ∧
    (∀ b : DiscordUser,
      (b.displayName ≠ "" ∨ (b.globalName = "" ∧ b.username = "")) →
      b.avatarURL = BuildAvatarURL b.id b.avatar b.discriminator →
      MergeDiscordUser emptyDiscordUser b = b) := by
  constructor
  · intro a hname hurl
    obtain ⟨id, username, globalName, displayName, avatar, avatarURL, discriminator,
      bot, publicFlags, add, pg, col, dns⟩ := a
    dsimp only at hname hurl
    subst hurl
    simp only [MergeDiscordUser, emptyDiscordUser, DiscordUser.mk.injEq]
    simp only [mergeStringField_empty_src, mergeAnyField_null_src, mergeIntField_zero_src,
      Bool.false_or]
    rcases hname with hd | ⟨hg, hu⟩
    · rw [if_neg hd]; simp
    · by_cases hd : displayName = "" <;> simp [hd, hg, hu, FirstNonEmpty]
  · intro b hname hurl
    obtain ⟨id, username, globalName, displayName, avatar, avatarURL, discriminator,
      bot, publicFlags, add, pg, col, dns⟩ := b
    dsimp only at hname hurl
    subst hurl
    simp only [MergeDiscordUser, emptyDiscordUser, DiscordUser.mk.injEq]
    simp only [mergeStringField_empty_tgt, mergeAnyField_null_tgt, mergeIntField_zero_tgt,
      Bool.or_false]
    rcases hname with hd | ⟨hg, hu⟩
    · rw [if_neg hd]; simp
    · by_cases hd : displayName = "" <;> simp [hd, hg, hu, FirstNonEmpty]

/-- A user already in merge normal form: a non-empty display name and
the recomputed default avatar URL. -/
def c3WitnessUser : DiscordUser :=
  { displayName := "x"
    avatarURL := "https://cdn.discordapp.com/embed/avatars/0.png?size=128" }

/-- Witness: both identities of the amended merge theorem hold at the
normal-form witness user. -/
theorem C3_merge_identity_amended_witness :
    MergeDiscordUser c3WitnessUser emptyDiscordUser = c3WitnessUser ∧
    MergeDiscordUser emptyDiscordUser c3WitnessUser = c3WitnessUser :=
  ⟨C3_merge_identity_amended.1 c3WitnessUser (Or.inl (by decide)) (by decide),
   C3_merge_identity_amended.2 c3WitnessUser (Or.inl (by decide)) (by decide)⟩

/-- C6: on a registered connection, an Initialize frame whose d is null
or not an object closes with 4005; an Initialize whose rebuilt
subscription set is empty closes with 4006; and any opcode other than 2
or 3 closes with 4004. -/
theorem C6_close_codes (st : StoreState) (conn : ConnState) (d : JSONValue) (op : Int) :
    ((d = .jnull ∨ ∀ fields : JObj, d ≠ .jobj fields) →
      (HandleFrame st conn { op := 2, d := d }).1 = .close 4005 "requires_data_object") ∧
    ((∃ fields : JObj, d = .jobj fields) → buildSubs (decodeInitPayload d) = [] →
      (HandleFrame st conn { op := 2, d := d }).1 = .close 4006 "invalid_payload") ∧
    (op ≠ 2 → op ≠ 3 →
      (HandleFrame st conn { op := op, d := d }).1 = .close 4004 "unknown_opcode") := by
  refine ⟨fun h => ?_, fun hobj hempty => ?_, fun h2 h3 => ?_⟩
  · cases d <;> simp only [HandleFrame, HandleInit, if_pos rfl] <;> first
      | rfl
      | (rcases h with h | h
         · exact absurd h (by simp)
         · exact absurd rfl (h _))
  · obtain ⟨fields, rfl⟩ := hobj
    simp [HandleFrame, HandleInit, hempty]
  · simp [HandleFrame, h2, h3]

/-- Witness: the three close codes observed on concrete frames: a null
Initialize, an Initialize with an empty id array, and opcode 5. -/
theorem C6_close_codes_witness :
    (HandleFrame {} {} { op := 2, d := .jnull }).1 = .close 4005 "requires_data_object" ∧
    (HandleFrame {} {} { op := 2, d := .jobj [("subscribe_to_ids", .jarr [])] }).1 =
      .close 4006 "invalid_payload" ∧
    (HandleFrame {} {} { op := 5, d := .jnull }).1 = .close 4004 "unknown_opcode" :=
  ⟨(C6_close_codes {} {} .jnull 5).1 (Or.inl rfl),
   (C6_close_codes {} {} (.jobj [("subscribe_to_ids", .jarr [])]) 5).2.1 ⟨_, rfl⟩ rfl,
   (C6_close_codes {} {} .jnull 5).2.2 (by decide) (by decide)⟩

/-- Folding ids into the subscription set never adds an empty id. -/
theorem buildSubs_fold_ne_empty (l : List String) :
    ∀ (acc : List String), (∀ x ∈ acc, x ≠ "") →
      ∀ x ∈ l.foldl (fun acc id => if id ≠ "" ∧ ¬ id ∈ acc then acc ++ [id] else acc) acc,
        x ≠ "" := by
  induction l with
  | nil => intro acc h; simpa using h
  | cons a l ih =>
    intro acc h
    simp only [List.foldl_cons]
    apply ih
    by_cases ha : a ≠ "" ∧ ¬ a ∈ acc
    · rw [if_pos ha]
      intro x hx
      rcases List.mem_append.mp hx with hx | hx
      · exact h x hx
      · rw [List.mem_singleton.mp hx]; exact ha.1
    · rw [if_neg ha]; exact h

/-- Folding only empty ids leaves the accumulator unchanged. -/
theorem buildSubs_fold_all_empty (l : List String) (hall : ∀ id ∈ l, id = "") :
    ∀ acc : List String,
      l.foldl (fun acc id => if id ≠ "" ∧ ¬ id ∈ acc then acc ++ [id] else acc) acc = acc := by
  induction l with
  | nil => intro acc; rfl
  | cons a l ih =>
    intro acc
    have ha : a = "" := hall a (List.mem_cons_self a l)
    simp only [List.foldl_cons, ha]
    rw [if_neg (by simp)]
    exact ih (fun id hid => hall id (List.mem_cons_of_mem a hid)) acc

/-- Every id in a rebuilt subscription set is non-empty. -/
theorem buildSubs_mem_ne_empty (p : InitPayload) :
    ∀ x ∈ buildSubs p, x ≠ "" := by
  apply buildSubs_fold_ne_empty
  intro x hx
  by_cases h : p.subscribeToID ≠ ""
  · rw [if_pos h] at hx
    rw [List.mem_singleton.mp hx]; exact h
  · rw [if_neg h] at hx
    exact absurd hx (List.not_mem_nil x)

/-- A payload carrying only empty ids rebuilds the empty set. -/
theorem buildSubs_all_empty (p : InitPayload)
    (hids : ∀ id ∈ p.subscribeToIDs, id = "") (hid : p.subscribeToID = "") :
    buildSubs p = [] := by
  unfold buildSubs
  rw [buildSubs_fold_all_empty p.subscribeToIDs hids]
  simp [hid]

/-- C9: a valid Initialize on a live connection replaces the entire
subscription set with the ids of the new frame (the result does not
depend on the previous subscriptions), ignores empty-string ids, sends
INIT_STATE exactly for the new ids present in the store, and closes with
4006 when the rebuilt set — for example one built only from empty
strings — is empty. -/
theorem C9_reinit_replaces_subs (st : StoreState) (conn : ConnState) (fields : JObj) :
    ((HandleInit st conn (.jobj fields)).2.subs =
      buildSubs (decodeInitPayload (.jobj fields))) ∧
    (∀ conn2 : ConnState,
      (HandleInit st conn2 (.jobj fields)).2 = (HandleInit st conn (.jobj fields)).2) ∧
    (∀ id ∈ buildSubs (decodeInitPayload (.jobj fields)), id ≠ "") ∧
    (buildSubs (decodeInitPayload (.jobj fields)) ≠ [] →
      (HandleInit st conn (.jobj fields)).1 =
        .initOk ((buildSubs (decodeInitPayload (.jobj fields))).filter
          (fun id => (lookupData st id).isSome))) ∧
    (buildSubs (decodeInitPayload (.jobj fields)) = [] →
      (HandleInit st conn (.jobj fields)).1 = .close 4006 "invalid_payload") ∧
    (∀ p : InitPayload, (∀ id ∈ p.subscribeToIDs, id = "") → p.subscribeToID = "" →
      buildSubs p = []) := by
  refine ⟨?_, fun conn2 => ?_, buildSubs_mem_ne_empty _, fun hne => ?_, fun he => ?_,
    fun p h1 h2 => buildSubs_all_empty p h1 h2⟩
  · simp only [HandleInit]
    split <;> rfl
  · simp only [HandleInit]
  · simp only [HandleInit]
    rw [if_neg (by simpa using hne)]
  · simp only [HandleInit]
    rw [if_pos (by simpa using he)]

/-- The store, connection and frame of the C9 witness: user 1 is
present, the connection already follows user 9, and the new frame lists
id 1, a JSON null (which decodes to the zero value "" and is then
ignored by the set builder), and id 2. -/
def c9Store : StoreState := setPresenceStore {} "1" {}

/-- The previously live connection of the C9 witness. -/
def c9Conn : ConnState := { subs := ["9"] }

/-- The Initialize d object of the C9 witness. -/
def c9Fields : JObj := [("subscribe_to_ids", .jarr [.jstr "1", .jnull, .jstr "2"])]

/-- Witness: re-initializing the C9 connection drops id 9, keeps the
non-empty ids 1 and 2 (the null element contributes nothing), and sends
INIT_STATE only for the stored id 1. -/
theorem C9_reinit_replaces_subs_witness :
    (HandleInit c9Store c9Conn (.jobj c9Fields)).2.subs =
      buildSubs (decodeInitPayload (.jobj c9Fields)) ∧
    buildSubs (decodeInitPayload (.jobj c9Fields)) = ["1", "2"] ∧
    (HandleInit c9Store c9Conn (.jobj c9Fields)).1 =
      .initOk ((buildSubs (decodeInitPayload (.jobj c9Fields))).filter
        (fun id => (lookupData c9Store id).isSome)) ∧
    (HandleInit c9Store c9Conn (.jobj c9Fields)).1 = .initOk ["1"] :=
  ⟨(C9_reinit_replaces_subs c9Store c9Conn c9Fields).1, by decide,
   (C9_reinit_replaces_subs c9Store c9Conn c9Fields).2.2.2.1 (by decide), rfl⟩

/-- After cancelling the subscriber just registered, its id is no longer
in the watcher set. -/
theorem cancel_subscribe_not_reg (s : StoreState) :
    (subscribeStore s).1 ∉ (cancelStore (subscribeStore s).2 (subscribeStore s).1).registered := by
  simp [subscribeStore, cancelStore, List.mem_filter]

/-- The set, remove and broadcast mutations never change the watcher
registry. -/
theorem applyOp_registered (s : StoreState) (op : StoreOp) :
    (applyOp s op).registered = s.registered := by
  cases op with
  | set u p => rfl
  | remove u => rfl
  | broadcastP u =>
    simp only [applyOp, broadcastPresenceStore]
    split <;> rfl

/-- The set, remove and broadcast mutations leave the channel of an
unregistered id untouched. -/
theorem applyOp_chans_not_reg (s : StoreState) (op : StoreOp) (wid : Nat)
    (h : wid ∉ s.registered) : (applyOp s op).chans wid = s.chans wid := by
  cases op with
  | set u p => simp [applyOp, setPresenceStore, broadcastStore, h]
  | remove u => simp [applyOp, removePresenceStore, broadcastStore, h]
  | broadcastP u =>
    simp only [applyOp, broadcastPresenceStore]
    split
    · rfl
    · simp [broadcastStore, h]

/-- Whole mutation sequences leave the channel of an unregistered id
untouched. -/
theorem runOps_chans_not_reg (ops : List StoreOp) :
    ∀ (s : StoreState) (wid : Nat), wid ∉ s.registered →
      (runOps s ops).chans wid = s.chans wid := by
  induction ops with
  | nil => intro s wid _; rfl
  | cons op rest ih =>
    intro s wid h
    have hr := applyOp_registered s op
    rw [runOps, ih (applyOp s op) wid (hr ▸ h), applyOp_chans_not_reg s op wid h]

/-- C7: cancelling a subscriber is idempotent — the second cancel is a
no-op and the channel is closed exactly once — and after the first
cancel returns, no sequence of set, remove or broadcast operations on
the store delivers anything to that subscriber's channel. -/
theorem C7_subscriber_cancel (s : StoreState) (ops : List StoreOp) :
    cancelStore (cancelStore (subscribeStore s).2 (subscribeStore s).1) (subscribeStore s).1 =
      cancelStore (subscribeStore s).2 (subscribeStore s).1 ∧
    ((cancelStore (subscribeStore s).2 (subscribeStore s).1).chans
      (subscribeStore s).1).closeCount = 1 ∧
    ((cancelStore (subscribeStore s).2 (subscribeStore s).1).chans
      (subscribeStore s).1).closed = true ∧
    (runOps (cancelStore (subscribeStore s).2 (subscribeStore s).1) ops).chans
        (subscribeStore s).1 =
      (cancelStore (subscribeStore s).2 (subscribeStore s).1).chans (subscribeStore s).1 := by
  have hnot := cancel_subscribe_not_reg s
  refine ⟨?_, ?_, ?_, runOps_chans_not_reg ops _ _ hnot⟩
  · rw [cancelStore, if_neg hnot]
  · simp [cancelStore, subscribeStore]
  · simp [cancelStore, subscribeStore]

/-- Deleting a key makes the subsequent keyed search fail. -/
theorem findData_erase (d : List (String × PresenceData)) (k : String) :
    (eraseData d k).find? (fun p => p.1 == k) = none := by
  rw [List.find?_eq_none]
  intro x hx
  have hne := (List.mem_filter.mp hx).2
  simp only [eraseData] at hne ⊢
  simp at hne
  simp [hne]

/-- C10: remove deletes the key and emits the removal event
unconditionally — every registered subscriber whose channel has room
receives {user_id, removed: true}, whether or not the id was present in
the store beforehand. -/
theorem C10_remove_unconditional (s : StoreState) (userID : String) (wid : Nat)
    (hw : wid ∈ s.registered) :
    lookupData (removePresenceStore s userID) userID = none ∧
    ((removePresenceStore s userID).chans wid).buf =
      (if (s.chans wid).buf.length < 16 then
        (s.chans wid).buf ++ [{ userID := userID, presence := none, removed := true }]
       else (s.chans wid).buf) := by
  constructor
  · simp [removePresenceStore, broadcastStore, lookupData, findData_erase]
  · simp only [removePresenceStore, broadcastStore]
    rw [if_pos hw]
    simp only [trySend]
    split <;> rfl

/-- The C10 witness store: one registered subscriber (id 0) and no data
at all, so the removed user was never stored. -/
def c10Store : StoreState := (subscribeStore {}).2

/-- Witness: removing the never-stored user ghost still leaves a
removal event in subscriber 0's channel. -/
theorem C10_remove_unconditional_witness :
    0 ∈ c10Store.registered ∧
    lookupData c10Store "ghost" = none ∧
    (lookupData (removePresenceStore c10Store "ghost") "ghost" = none ∧
     ((removePresenceStore c10Store "ghost").chans 0).buf =
       (if (c10Store.chans 0).buf.length < 16 then
         (c10Store.chans 0).buf ++ [{ userID := "ghost", presence := none, removed := true }]
        else (c10Store.chans 0).buf)) :=
  ⟨by simp [c10Store, subscribeStore], rfl,
   C10_remove_unconditional c10Store "ghost" 0 (by simp [c10Store, subscribeStore])⟩
